import Mathlib

/-!
Verification of the password-evaluation service.

Shallow embedding of the core logic found in `src/passwordLogic.js` and of
the request handler of `src/index.js`.  Strings are modelled as `List Char`
(JavaScript strings are sequences of code units; all inputs relevant to the
claims are plain characters).  JavaScript floating-point numbers are
modelled as real numbers (`ℝ`), which is the semantics the specification
states for entropy and crack time.  The reference corpus (a JS `Set`
iterated in insertion order) is modelled as a `List (List Char)` in that
iteration order.
-/

/-- Mirrors the JS regex test `/[a-z]/.test` on a single character:
an ASCII lowercase letter. -/
def isLowerChar (c : Char) : Bool :=
  decide (97 ≤ c.toNat) && decide (c.toNat ≤ 122)

/-- Mirrors the JS regex test `/[A-Z]/.test` on a single character:
an ASCII uppercase letter. -/
def isUpperChar (c : Char) : Bool :=
  decide (65 ≤ c.toNat) && decide (c.toNat ≤ 90)

/-- Mirrors the JS regex test `/[0-9]/.test` on a single character:
an ASCII digit. -/
def isDigitChar (c : Char) : Bool :=
  decide (48 ≤ c.toNat) && decide (c.toNat ≤ 57)

/-- The code points of the fixed symbol class of `calculateN`, in the order
they appear in the source regex: space, backtick, bang, at, hash, dollar,
percent, caret, ampersand, star, parens, underscore, plus, minus, equals,
square brackets, curly braces, semicolon, apostrophe, colon, double quote,
backslash, pipe, comma, dot, angle brackets, slash, question mark, tilde. -/
def symbolCodes : List Nat :=
  [32, 96, 33, 64, 35, 36, 37, 94, 38, 42, 40, 41, 95, 43, 45, 61,
   91, 93, 123, 125, 59, 39, 58, 34, 92, 124, 44, 46, 60, 62, 47, 63, 126]

/-- Membership in the fixed symbol class of `calculateN`. -/
def isSymbolChar (c : Char) : Bool :=
  symbolCodes.contains c.toNat

/-- `calculateL` from `passwordLogic.js`: 0 for a falsy (empty) input,
otherwise the character count. -/
def calculateL (password : List Char) : Nat :=
  if password.isEmpty then 0 else password.length

/-- `calculateN` from `passwordLogic.js`: 0 for a falsy (empty) input,
otherwise the sum of the keyspace contributions of the character classes
occurring in the password. -/
def calculateN (password : List Char) : Nat :=
  if password.isEmpty then 0
  else
    (if password.any isLowerChar then 26 else 0)
    + (if password.any isUpperChar then 26 else 0)
    + (if password.any isDigitChar then 10 else 0)
    + (if password.any isSymbolChar then 32 else 0)

/-- `calculateEntropy` from `passwordLogic.js`:
`E = 0` when `N = 0`, otherwise `E = L * log2 N`. -/
noncomputable def calculateEntropy (L N : ℕ) : ℝ :=
  if N = 0 then 0 else (L : ℝ) * Real.logb 2 (N : ℝ)

/-- `checkPasswordStrength` from `passwordLogic.js`, with the original
Spanish labels. -/
noncomputable def checkPasswordStrength (entropy : ℝ) : String :=
  if entropy < 60 then "Débil"
  else if 60 ≤ entropy ∧ entropy < 80 then "Fuerte"
  else "Muy Fuerte"

/-- Result type of `calculateCrackTime`.  The JS function returns a
formatted string; here every bucket carries the exact numeric value that
the source formats (two decimals for seconds/minutes/hours/days, locale
grouping for years), and the two sentinel buckets carry no number, exactly
as in the source. -/
inductive CrackTimeResult where
  | instant : CrackTimeResult
  | seconds (v : ℝ) : CrackTimeResult
  | minutes (v : ℝ) : CrackTimeResult
  | hours (v : ℝ) : CrackTimeResult
  | days (v : ℝ) : CrackTimeResult
  | years (v : ℝ) : CrackTimeResult
  | millionsOfYears : CrackTimeResult

/-- `calculateCrackTime` from `passwordLogic.js`: `2^E` combinations at
`10^11` attempts per second, bucketed by the first satisfied branch. -/
noncomputable def calculateCrackTime (entropy : ℝ) : CrackTimeResult :=
  let attemptsPerSecond : ℝ := 10 ^ (11 : ℕ)
  let totalCombinations : ℝ := (2 : ℝ) ^ entropy
  let seconds := totalCombinations / attemptsPerSecond
  if seconds < 1 then .instant
  else if seconds < 60 then .seconds seconds
  else
    let minutes := seconds / 60
    if minutes < 60 then .minutes minutes
    else
      let hours := minutes / 60
      if hours < 24 then .hours hours
      else
        let days := hours / 24
        if days < 365 then .days days
        else
          let years := days / 365
          if years < 10 ^ (6 : ℕ) then .years years
          else .millionsOfYears

/-- The seconds quantity of `calculateCrackTime`:
`2^E` total combinations divided by the fixed throughput of `10^11`
attempts per second. -/
noncomputable def crackSeconds (entropy : ℝ) : ℝ :=
  (2 : ℝ) ^ entropy / 10 ^ (11 : ℕ)

/-- Models JS `String.prototype.toLowerCase` on the characters the claims
involve: an ASCII uppercase letter maps to its lowercase counterpart,
every other character is unchanged. -/
def jsToLower (c : Char) : Char :=
  if 65 ≤ c.toNat ∧ c.toNat ≤ 90 then Char.ofNat (c.toNat + 32) else c

/-- `findPartialMatch` from `passwordLogic.js`: scan the corpus in
iteration order; return the first entry of length at least `MIN_LENGTH = 5`
contained in the lowercased password, or `null` (`none`). -/
def findPartialMatch (password : List Char) (commonPasswordsSet : List (List Char)) :
    Option (List Char) :=
  match commonPasswordsSet with
  | [] => none
  | commonPass :: rest =>
    if 5 ≤ commonPass.length ∧ commonPass <:+: password.map jsToLower then
      some commonPass
    else findPartialMatch password rest

/-- A corpus entry qualifies for a partial match against a password when
it has length at least `MIN_LENGTH = 5` and is contained as a contiguous
substring of the lowercased password; this is the test of the `if` inside
the loop of `findPartialMatch`. -/
abbrev qualifiesFor (password entry : List Char) : Prop :=
  5 ≤ entry.length ∧ entry <:+: password.map jsToLower

/-- The crack-time field of the response: either the breach-list sentinel
string (when the password is an exact corpus member) or the
entropy-derived estimate. -/
inductive CrackTimeDisplay where
  | breachListed : CrackTimeDisplay
  | computed (t : CrackTimeResult) : CrackTimeDisplay

/-- Apostrophe character, used by the source to quote the matched word
inside the recommendation text. -/
def quoteChar : Char := Char.ofNat 39

/-- The response body assembled by the `/api/v1/password/evaluate` handler
in `src/index.js`.  The `entropy` field carries the exact value; the
source rounds it to two decimals for display only. -/
structure EvalResponse where
  maskedPassword : String
  length : Nat
  keyspace : Nat
  entropy : ℝ
  strength : String
  isCommon : Bool
  containedCommonWord : Option (List Char)
  estimatedCrackTime : CrackTimeDisplay
  recommendation : String

/-- The evaluation pipeline of the handler in `src/index.js`, lines
137-177: compute L, N, entropy, strength, crack time, exact corpus
membership; then override strength/recommendation on an exact match, or
search for a partial match only when the exact check fails. -/
noncomputable def evaluatePassword (password : List Char)
    (commonPasswords : List (List Char)) : EvalResponse :=
  let L := calculateL password
  let N := calculateN password
  let entropy := calculateEntropy L N
  let strength := checkPasswordStrength entropy
  let crackTime := calculateCrackTime entropy
  let isCommon := commonPasswords.contains password
  let step :=
    if isCommon then
      ("Muy Débil (Común)",
       "Esta contraseña es comun entre las contraseñas filtradas. Cambiala por una más segura.",
       (none : Option (List Char)))
    else
      match findPartialMatch password commonPasswords with
      | some w =>
        ("Débil (Predecible)",
         "Tu contraseña contiene la palabra común "
           ++ String.singleton quoteChar ++ String.mk w ++ String.singleton quoteChar,
         some w)
      | none => (strength, "¡Buena contraseña!", none)
  { maskedPassword := "***"
    length := L
    keyspace := N
    entropy := entropy
    strength := step.1
    isCommon := isCommon
    containedCommonWord := step.2.2
    estimatedCrackTime :=
      if isCommon then .breachListed else .computed crackTime
    recommendation := step.2.1 }

/-- The JSON value found in the request body under the `password` key,
as the JS handler can observe it: absent (`undefined`), `null`, a string,
or a non-string value (numbers and booleans stand in for the latter). -/
inductive JsValue where
  | undef : JsValue
  | null : JsValue
  | str (s : List Char) : JsValue
  | num (n : ℤ) : JsValue
  | boolean (b : Bool) : JsValue

/-- JS truthiness of a `JsValue` (`!password` negates this):
`undefined`, `null`, the empty string, `0` and `false` are falsy. -/
def jsTruthy : JsValue → Bool
  | .undef => false
  | .null => false
  | .str s => !s.isEmpty
  | .num n => decide (n ≠ 0)
  | .boolean b => b

/-- `typeof password === 'string'`. -/
def jsIsString : JsValue → Bool
  | .str _ => true
  | _ => false

/-- Outcome of the HTTP handler: a 400 with an error message, or a 200
with the evaluation response. -/
inductive ApiResult where
  | badRequest (msg : String) : ApiResult
  | ok (r : EvalResponse) : ApiResult

/-- The fixed 400 error message of the handler. -/
def requiredMsg : String :=
  "La contraseña es requerida y debe ser un texto (string)."

/-- The `/api/v1/password/evaluate` handler of `src/index.js`: reject a
falsy or non-string `password` with a 400 and the fixed message before any
evaluation; otherwise run the evaluation pipeline.  The non-string fallback
of the match is unreachable because the guard has already passed. -/
noncomputable def handleEvaluate (password : JsValue)
    (commonPasswords : List (List Char)) : ApiResult :=
  if !jsTruthy password || !jsIsString password then .badRequest requiredMsg
  else
    match password with
    | .str s => .ok (evaluatePassword s commonPasswords)
    | _ => .badRequest requiredMsg

/-- C1: for every non-empty password, `calculateN` returns the sum of the
contributions of exactly the character classes present at least once:
+26 for a lowercase letter, +26 for an uppercase letter, +10 for a digit,
+32 for a symbol of the fixed set; the classes are independent, and the
sum form makes the result independent of the order the classes are
tested in.  In particular a password containing all four classes gets
`N = 26 + 26 + 10 + 32 = 94`. -/
theorem c1_calculateN_class_sum (p : List Char) (hp : p ≠ []) :
    calculateN p =
      (if ∃ c ∈ p, isLowerChar c = true then 26 else 0)
      + (if ∃ c ∈ p, isUpperChar c = true then 26 else 0)
      + (if ∃ c ∈ p, isDigitChar c = true then 10 else 0)
      + (if ∃ c ∈ p, isSymbolChar c = true then 32 else 0) := by
  simp [calculateN, List.any_eq_true, List.isEmpty_iff, hp]

/-- Witness for C1 at the concrete password `aB3!`, where all four
classes are present and the sum is 94. -/
theorem c1_calculateN_class_sum_witness :
    calculateN [Char.ofNat 97, Char.ofNat 66, Char.ofNat 51, Char.ofNat 33] =
      (if ∃ c ∈ [Char.ofNat 97, Char.ofNat 66, Char.ofNat 51, Char.ofNat 33],
          isLowerChar c = true then 26 else 0)
      + (if ∃ c ∈ [Char.ofNat 97, Char.ofNat 66, Char.ofNat 51, Char.ofNat 33],
          isUpperChar c = true then 26 else 0)
      + (if ∃ c ∈ [Char.ofNat 97, Char.ofNat 66, Char.ofNat 51, Char.ofNat 33],
          isDigitChar c = true then 10 else 0)
      + (if ∃ c ∈ [Char.ofNat 97, Char.ofNat 66, Char.ofNat 51, Char.ofNat 33],
          isSymbolChar c = true then 32 else 0) :=
  c1_calculateN_class_sum _ (by decide)

/-- Helper: the positive branch of `calculateEntropy`. -/
theorem calculateEntropy_of_pos (L N : ℕ) (h : 1 ≤ N) :
    calculateEntropy L N = (L : ℝ) * Real.logb 2 (N : ℝ) := by
  have hN : N ≠ 0 := by omega
  simp [calculateEntropy, hN]

/-- Helper: entropy is never negative. -/
theorem calculateEntropy_nonneg (L N : ℕ) : 0 ≤ calculateEntropy L N := by
  rcases Nat.eq_zero_or_pos N with h | h
  · simp [calculateEntropy, h]
  · rw [calculateEntropy_of_pos L N h]
    apply mul_nonneg (Nat.cast_nonneg L)
    exact Real.logb_nonneg (by norm_num) (by exact_mod_cast h)

/-- C2: `calculateEntropy` returns 0 when `N = 0`, and otherwise returns
`L * log2 N`, which is non-negative for `L ≥ 0` (automatic for a natural
number) and `N ≥ 1`.  The Lean function is total by construction, as the
JS function is total over numbers. -/
theorem c2_calculateEntropy_spec (L N : ℕ) :
    (N = 0 → calculateEntropy L N = 0) ∧
    (1 ≤ N →
      calculateEntropy L N = (L : ℝ) * Real.logb 2 (N : ℝ) ∧
      0 ≤ calculateEntropy L N) :=
  ⟨fun h => by simp [calculateEntropy, h],
   fun h => ⟨calculateEntropy_of_pos L N h, calculateEntropy_nonneg L N⟩⟩

/-- Witness for C2 at `N = 0` and at `(L, N) = (5, 4)`. -/
theorem c2_calculateEntropy_spec_witness :
    calculateEntropy 5 0 = 0 ∧
    (calculateEntropy 5 4 = (5 : ℝ) * Real.logb 2 (4 : ℝ) ∧
      0 ≤ calculateEntropy 5 4) :=
  ⟨(c2_calculateEntropy_spec 5 0).1 rfl,
   by exact_mod_cast (c2_calculateEntropy_spec 5 4).2 (by norm_num)⟩

/-- C3: the strength classifier returns the weak label below 60 bits, the
strong label on `[60, 80)`, and the very-strong label from 80 bits on; the
boundary values 60 and 80 fall in the upper bucket. -/
theorem c3_checkPasswordStrength_buckets (E : ℝ) :
    (E < 60 → checkPasswordStrength E = "Débil") ∧
    (60 ≤ E → E < 80 → checkPasswordStrength E = "Fuerte") ∧
    (80 ≤ E → checkPasswordStrength E = "Muy Fuerte") := by
  refine ⟨fun h => ?_, fun h1 h2 => ?_, fun h => ?_⟩ <;>
    simp only [checkPasswordStrength] <;> split_ifs <;>
    first | rfl | linarith | tauto

/-- Witness for C3 at the boundary entropies 60 and 80. -/
theorem c3_checkPasswordStrength_buckets_witness :
    checkPasswordStrength 60 = "Fuerte" ∧
    checkPasswordStrength 80 = "Muy Fuerte" :=
  ⟨(c3_checkPasswordStrength_buckets 60).2.1 (by norm_num) (by norm_num),
   (c3_checkPasswordStrength_buckets 80).2.2 (by norm_num)⟩

/-- C8: entropy is monotone, non-decreasing in the length for a fixed
keyspace size and non-decreasing in the keyspace size for a fixed length. -/
theorem c8_calculateEntropy_monotone :
    (∀ N L₁ L₂ : ℕ, L₁ ≤ L₂ → calculateEntropy L₁ N ≤ calculateEntropy L₂ N) ∧
    (∀ L N₁ N₂ : ℕ, N₁ ≤ N₂ → calculateEntropy L N₁ ≤ calculateEntropy L N₂) := by
  constructor
  · intro N L₁ L₂ hL
    rcases Nat.eq_zero_or_pos N with h | h
    · simp [calculateEntropy, h]
    · rw [calculateEntropy_of_pos L₁ N h, calculateEntropy_of_pos L₂ N h]
      apply mul_le_mul_of_nonneg_right (by exact_mod_cast hL)
      exact Real.logb_nonneg (by norm_num) (by exact_mod_cast h)
  · intro L N₁ N₂ hN
    rcases Nat.eq_zero_or_pos N₁ with h1 | h1
    · rw [show calculateEntropy L N₁ = 0 by simp [calculateEntropy, h1]]
      exact calculateEntropy_nonneg L N₂
    · have h2 : 1 ≤ N₂ := le_trans h1 hN
      rw [calculateEntropy_of_pos L N₁ h1, calculateEntropy_of_pos L N₂ h2]
      apply mul_le_mul_of_nonneg_left _ (Nat.cast_nonneg L)
      exact Real.logb_le_logb_of_le (by norm_num)
        (by exact_mod_cast h1) (by exact_mod_cast hN)

/-- Helper: lowercasing a character never produces an ASCII uppercase
letter. -/
theorem isUpperChar_jsToLower (c : Char) : isUpperChar (jsToLower c) = false := by
  unfold jsToLower isUpperChar
  split_ifs with h
  · have hv : (Char.ofNat (c.toNat + 32)).toNat = c.toNat + 32 := by
      unfold Char.ofNat
      split
      · rfl
      · rename_i hc
        exact absurd (Or.inl (by omega)) hc
    simp only [hv, Bool.and_eq_false_iff, decide_eq_false_iff_not]
    omega
  · simp only [Bool.and_eq_false_iff, decide_eq_false_iff_not]
    omega

/-- Helper: a successful partial match always satisfies the qualification
test of the loop. -/
theorem findPartialMatch_some_qualifies {p w : List Char} {corpus : List (List Char)}
    (h : findPartialMatch p corpus = some w) : qualifiesFor p w := by
  induction corpus with
  | nil => simp [findPartialMatch] at h
  | cons a rest ih =>
    rw [findPartialMatch] at h
    split_ifs at h with hq
    · cases h
      exact hq
    · exact ih h

/-- C6: `findPartialMatch` returns `none` exactly when no corpus entry
qualifies (in particular on the empty corpus), and returns `some w`
exactly when `w` is the first entry in corpus iteration order that has
length at least 5 and is contained in the lowercased password — every
earlier entry fails the test, so the scan stops at `w`; entries of length
4 or less never qualify by definition of `qualifiesFor`. -/
theorem c6_findPartialMatch_first (p : List Char) (corpus : List (List Char)) :
    (findPartialMatch p corpus = none ↔ ∀ e ∈ corpus, ¬ qualifiesFor p e) ∧
    (∀ w, findPartialMatch p corpus = some w ↔
      ∃ pre post, corpus = pre ++ w :: post ∧ qualifiesFor p w ∧
        ∀ e ∈ pre, ¬ qualifiesFor p e) := by
  induction corpus with
  | nil => simp [findPartialMatch]
  | cons a rest ih =>
    constructor
    · rw [findPartialMatch]
      split_ifs with h
      · simp only [List.mem_cons]
        constructor
        · intro hc
          cases hc
        · intro hall
          exact absurd h (hall a (Or.inl rfl))
      · rw [ih.1]
        simp only [List.mem_cons]
        constructor
        · intro hall e he
          rcases he with rfl | he
          · exact h
          · exact hall e he
        · intro hall e he
          exact hall e (Or.inr he)
    · intro w
      rw [findPartialMatch]
      split_ifs with h
      · constructor
        · intro hw
          cases hw
          exact ⟨[], rest, rfl, h, by simp⟩
        · rintro ⟨pre, post, hc, hw, hpre⟩
          cases pre with
          | nil =>
            simp only [List.nil_append, List.cons.injEq] at hc
            rw [hc.1]
          | cons b pre =>
            simp only [List.cons_append, List.cons.injEq] at hc
            exact absurd (hc.1 ▸ h) (hpre b (by simp))
      · rw [ih.2 w]
        constructor
        · rintro ⟨pre, post, hc, hw, hpre⟩
          refine ⟨a :: pre, post, by rw [hc, List.cons_append], hw, ?_⟩
          intro e he
          rcases List.mem_cons.mp he with rfl | he
          · exact h
          · exact hpre e he
        · rintro ⟨pre, post, hc, hw, hpre⟩
          cases pre with
          | nil =>
            simp only [List.nil_append, List.cons.injEq] at hc
            exact absurd (hc.1 ▸ hw) h
          | cons b pre =>
            simp only [List.cons_append, List.cons.injEq] at hc
            exact ⟨pre, post, hc.2, hw, fun e he => hpre e (List.mem_cons_of_mem b he)⟩

/-- Witness for C6: on the empty corpus the scan returns `none`. -/
theorem c6_findPartialMatch_first_witness :
    findPartialMatch [Char.ofNat 97] [] = none :=
  (c6_findPartialMatch_first [Char.ofNat 97] []).1.mpr (by simp)

/-- C10: a corpus entry containing an ASCII uppercase letter is never
returned by `findPartialMatch`, for any password: the password alone is
lowercased, the entry is compared verbatim, and no character of the
lowercased password is uppercase. -/
theorem c10_uppercase_entry_never_returned (p e : List Char)
    (corpus : List (List Char)) (he : ∃ c ∈ e, isUpperChar c = true) :
    findPartialMatch p corpus ≠ some e := by
  intro hsome
  obtain ⟨c, hc, hupper⟩ := he
  have hqual := findPartialMatch_some_qualifies hsome
  have hmem : c ∈ p.map jsToLower := hqual.2.subset hc
  obtain ⟨a, _, rfl⟩ := List.mem_map.mp hmem
  rw [isUpperChar_jsToLower] at hupper
  cases hupper

/-- Witness for C10: the all-uppercase five-letter corpus entry `ABCDE`
is not returned even for a password containing `abcde`. -/
theorem c10_uppercase_entry_never_returned_witness :
    findPartialMatch [Char.ofNat 97, Char.ofNat 98, Char.ofNat 99, Char.ofNat 100,
        Char.ofNat 101]
      [[Char.ofNat 65, Char.ofNat 66, Char.ofNat 67, Char.ofNat 68, Char.ofNat 69]] ≠
      some [Char.ofNat 65, Char.ofNat 66, Char.ofNat 67, Char.ofNat 68, Char.ofNat 69] :=
  c10_uppercase_entry_never_returned _ _ _ ⟨Char.ofNat 65, by decide, by decide⟩

/-- C7 counterexample: the one-character password with code point 241
(a lowercase n with tilde, outside all four ASCII character classes) is
non-empty yet `calculateN` returns 0, refuting the claim that every
non-empty password yields `N > 0`. -/
theorem c7_counterexample :
    ([Char.ofNat 241] : List Char) ≠ [] ∧ calculateN [Char.ofNat 241] = 0 := by
  decide

/-- C7 amended: `calculateN` returns 0 exactly when no character of the
password belongs to any of the four character classes; this covers the
empty password, but also non-empty passwords made only of unrecognized
characters. -/
theorem c7_calculateN_zero_iff (p : List Char) :
    calculateN p = 0 ↔
      ∀ c ∈ p, isLowerChar c = false ∧ isUpperChar c = false ∧
        isDigitChar c = false ∧ isSymbolChar c = false := by
  rcases eq_or_ne p [] with rfl | hp
  · simp [calculateN]
  · simp only [calculateN, List.isEmpty_eq_true, hp, if_false]
    split_ifs <;> simp_all [List.any_eq_true, List.any_eq_false] <;> aesop

/-- Witness for the amended C7 at the empty password. -/
theorem c7_calculateN_zero_iff_witness : calculateN [] = 0 :=
  (c7_calculateN_zero_iff []).mpr (by simp)

/-- C9: for a request whose password field is absent, null, a non-string
value, or the empty string, the handler answers with the 400 error and its
fixed message; the result carries no evaluation, reflecting that the
guard returns before any computation in the source. -/
theorem c9_handleEvaluate_invalid (corpus : List (List Char)) :
    handleEvaluate .undef corpus = .badRequest requiredMsg ∧
    handleEvaluate .null corpus = .badRequest requiredMsg ∧
    (∀ n : ℤ, handleEvaluate (.num n) corpus = .badRequest requiredMsg) ∧
    (∀ b : Bool, handleEvaluate (.boolean b) corpus = .badRequest requiredMsg) ∧
    handleEvaluate (.str []) corpus = .badRequest requiredMsg := by
  refine ⟨rfl, rfl, fun n => ?_, fun b => ?_, rfl⟩ <;>
    simp [handleEvaluate, jsTruthy, jsIsString]

/-- Witness for C9 against the empty corpus. -/
theorem c9_handleEvaluate_invalid_witness :
    handleEvaluate .null [] = .badRequest requiredMsg :=
  (c9_handleEvaluate_invalid []).2.1

/-- C4: the crack-time estimator divides `2^E` combinations by the fixed
throughput of `10^11` attempts per second and returns the first satisfied
branch in ascending order: under a second the instant sentinel, then
seconds, minutes, hours, days and years each carrying the exact value the
source formats, and beyond a million years the unbounded sentinel with no
numeric value. -/
theorem c4_calculateCrackTime_buckets (E : ℝ) :
    (crackSeconds E < 1 → calculateCrackTime E = .instant) ∧
    (1 ≤ crackSeconds E → crackSeconds E < 60 →
      calculateCrackTime E = .seconds (crackSeconds E)) ∧
    (60 ≤ crackSeconds E → crackSeconds E / 60 < 60 →
      calculateCrackTime E = .minutes (crackSeconds E / 60)) ∧
    (60 ≤ crackSeconds E / 60 → crackSeconds E / 60 / 60 < 24 →
      calculateCrackTime E = .hours (crackSeconds E / 60 / 60)) ∧
    (24 ≤ crackSeconds E / 60 / 60 → crackSeconds E / 60 / 60 / 24 < 365 →
      calculateCrackTime E = .days (crackSeconds E / 60 / 60 / 24)) ∧
    (365 ≤ crackSeconds E / 60 / 60 / 24 →
      crackSeconds E / 60 / 60 / 24 / 365 < 10 ^ (6 : ℕ) →
      calculateCrackTime E = .years (crackSeconds E / 60 / 60 / 24 / 365)) ∧
    (10 ^ (6 : ℕ) ≤ crackSeconds E / 60 / 60 / 24 / 365 →
      calculateCrackTime E = .millionsOfYears) := by
  refine ⟨fun h1 => ?_, fun h1 h2 => ?_, fun h1 h2 => ?_, fun h1 h2 => ?_,
    fun h1 h2 => ?_, fun h1 h2 => ?_, fun h1 => ?_⟩ <;>
  · unfold crackSeconds at *
    simp only [calculateCrackTime]
    split_ifs <;> first | rfl | linarith

/-- Witness for C4 at zero entropy: one combination takes well under a
second, so the instant bucket wins. -/
theorem c4_calculateCrackTime_buckets_witness :
    calculateCrackTime 0 = .instant :=
  (c4_calculateCrackTime_buckets 0).1
    (by unfold crackSeconds; rw [Real.rpow_zero]; norm_num)

/-- C5: the result composer of the handler.  On an exact corpus match the
partial search is skipped (`isCommon` is true, `containedCommonWord` is
null), the strength is overridden to the dedicated common label and the
crack time to the breach-list sentinel; on a partial match only, the
strength is overridden to the predictable label while the crack time keeps
the entropy-derived estimate; with no match both keep their
entropy-derived values. -/
theorem c5_evaluatePassword_cases (p : List Char) (corpus : List (List Char)) :
    (corpus.contains p = true →
      (evaluatePassword p corpus).isCommon = true ∧
      (evaluatePassword p corpus).containedCommonWord = none ∧
      (evaluatePassword p corpus).strength = "Muy Débil (Común)" ∧
      (evaluatePassword p corpus).estimatedCrackTime = .breachListed) ∧
    (corpus.contains p = false → ∀ w, findPartialMatch p corpus = some w →
      (evaluatePassword p corpus).isCommon = false ∧
      (evaluatePassword p corpus).containedCommonWord = some w ∧
      (evaluatePassword p corpus).strength = "Débil (Predecible)" ∧
      (evaluatePassword p corpus).estimatedCrackTime =
        .computed (calculateCrackTime (calculateEntropy (calculateL p) (calculateN p)))) ∧
    (corpus.contains p = false → findPartialMatch p corpus = none →
      (evaluatePassword p corpus).isCommon = false ∧
      (evaluatePassword p corpus).containedCommonWord = none ∧
      (evaluatePassword p corpus).strength =
        checkPasswordStrength (calculateEntropy (calculateL p) (calculateN p)) ∧
      (evaluatePassword p corpus).estimatedCrackTime =
        .computed (calculateCrackTime (calculateEntropy (calculateL p) (calculateN p)))) := by
  refine ⟨fun h => ?_, fun h w hw => ?_, fun h hn => ?_⟩
  · have hm : p ∈ corpus := by simpa using h
    simp [evaluatePassword, hm]
  · have hm : p ∉ corpus := by simpa using h
    simp [evaluatePassword, hm, hw]
  · have hm : p ∉ corpus := by simpa using h
    simp [evaluatePassword, hm, hn]

/-- Witness for C5: the password `12345` against the one-entry corpus
containing exactly `12345` takes the exact-match branch. -/
theorem c5_evaluatePassword_cases_witness :
    (evaluatePassword
        [Char.ofNat 49, Char.ofNat 50, Char.ofNat 51, Char.ofNat 52, Char.ofNat 53]
        [[Char.ofNat 49, Char.ofNat 50, Char.ofNat 51, Char.ofNat 52, Char.ofNat 53]]).isCommon
        = true ∧
    (evaluatePassword
        [Char.ofNat 49, Char.ofNat 50, Char.ofNat 51, Char.ofNat 52, Char.ofNat 53]
        [[Char.ofNat 49, Char.ofNat 50, Char.ofNat 51, Char.ofNat 52,
          Char.ofNat 53]]).containedCommonWord = none ∧
    (evaluatePassword
        [Char.ofNat 49, Char.ofNat 50, Char.ofNat 51, Char.ofNat 52, Char.ofNat 53]
        [[Char.ofNat 49, Char.ofNat 50, Char.ofNat 51, Char.ofNat 52,
          Char.ofNat 53]]).strength = "Muy Débil (Común)" ∧
    (evaluatePassword
        [Char.ofNat 49, Char.ofNat 50, Char.ofNat 51, Char.ofNat 52, Char.ofNat 53]
        [[Char.ofNat 49, Char.ofNat 50, Char.ofNat 51, Char.ofNat 52,
          Char.ofNat 53]]).estimatedCrackTime = .breachListed :=
  (c5_evaluatePassword_cases
    [Char.ofNat 49, Char.ofNat 50, Char.ofNat 51, Char.ofNat 52, Char.ofNat 53]
    [[Char.ofNat 49, Char.ofNat 50, Char.ofNat 51, Char.ofNat 52, Char.ofNat 53]]).1
    (by decide)

/-- Witness for C8 at `(L, N)` pairs `(1, 4) ≤ (2, 4)` and `(2, 4) ≤ (2, 8)`. -/
theorem c8_calculateEntropy_monotone_witness :
    calculateEntropy 1 4 ≤ calculateEntropy 2 4 ∧
    calculateEntropy 2 4 ≤ calculateEntropy 2 8 :=
  ⟨c8_calculateEntropy_monotone.1 4 1 2 (by norm_num),
   c8_calculateEntropy_monotone.2 2 4 8 (by norm_num)⟩
